import Mathlib

/-!
Shallow embedding of the surf_chat repository (src/mcp.py and src/gradio.py).

JSON-decoded Python values are modelled by `Json`.  Python `dict.get` with a
default is `dictGet` (it fails, like Python's AttributeError, when the
receiver is not a dict); list slicing `[:n]` is `pySlice` (it fails, like
Python's TypeError, on values that are neither lists nor strings).
Uncaught Python exceptions are modelled by `Except.error` carrying a label
string; the exact Python message text is abbreviated in these labels.
Numbers are carried as rationals; their printed form (`ratStr`) is a
representative rendering, used only inside opaque prompt/serialized strings.
-/

inductive Json where
  | null
  | bool (b : Bool)
  | num (q : Rat)
  | str (s : String)
  | arr (xs : List Json)
  | obj (fields : List (String × Json))

/-- Python `d.get(key, default)`: on a dict, the stored value or the default;
on any other value it raises (AttributeError). -/
def dictGet : Json → String → Json → Except String Json
  | .obj fs, k, d => .ok ((fs.lookup k).getD d)
  | _, _, _ => .error "AttributeError"

/-- Python slicing `v[:n]`: defined on lists and strings, raises (TypeError)
otherwise. -/
def pySlice (n : Nat) : Json → Except String Json
  | .arr xs => .ok (.arr (xs.take n))
  | .str s => .ok (.str (s.take n))
  | _ => .error "TypeError"

/-- A single-quote character as a string (kept out of string literals). -/
def sQuote : String := String.singleton (Char.ofNat 39)

/-- A double-quote character as a string. -/
def dQuote : String := String.singleton (Char.ofNat 34)

/-- Representative rendering of a rational in printed output. -/
def ratStr (q : Rat) : String :=
  if q.den = 1 then toString q.num else toString q.num ++ "/" ++ toString q.den

mutual
/-- Python `repr` of a decoded-JSON value (string quoting and float printing
are representative; these strings are only ever compared as opaque values). -/
def pyRepr : Json → String
  | .null => "None"
  | .bool true => "True"
  | .bool false => "False"
  | .num q => ratStr q
  | .str s => sQuote ++ s ++ sQuote
  | .arr xs => "[" ++ pyReprList xs ++ "]"
  | .obj fs => "\x7b" ++ pyReprFields fs ++ "\x7d"

def pyReprList : List Json → String
  | [] => ""
  | [x] => pyRepr x
  | x :: xs => pyRepr x ++ ", " ++ pyReprList xs

def pyReprFields : List (String × Json) → String
  | [] => ""
  | [(k, v)] => sQuote ++ k ++ sQuote ++ ": " ++ pyRepr v
  | (k, v) :: fs => sQuote ++ k ++ sQuote ++ ": " ++ pyRepr v ++ ", " ++ pyReprFields fs
end

/-- Python `str()` as used by f-string interpolation. -/
def pyStr : Json → String
  | .str s => s
  | v => pyRepr v

mutual
/-- `json.dumps` of a value (the `indent=2` whitespace and string escaping
are not modelled; the serialized text is only ever compared as an opaque
value). -/
def dumps : Json → String
  | .null => "null"
  | .bool true => "true"
  | .bool false => "false"
  | .num q => ratStr q
  | .str s => dQuote ++ s ++ dQuote
  | .arr xs => "[" ++ dumpsList xs ++ "]"
  | .obj fs => "\x7b" ++ dumpsFields fs ++ "\x7d"

def dumpsList : List Json → String
  | [] => ""
  | [x] => dumps x
  | x :: xs => dumps x ++ ", " ++ dumpsList xs

def dumpsFields : List (String × Json) → String
  | [] => ""
  | [(k, v)] => dQuote ++ k ++ dQuote ++ ": " ++ dumps v
  | (k, v) :: fs => dQuote ++ k ++ dQuote ++ ": " ++ dumps v ++ ", " ++ dumpsFields fs
end

/-- Python truthiness of a decoded-JSON value. -/
def jTruthy : Json → Bool
  | .null => false
  | .bool b => b
  | .num q => decide (q ≠ 0)
  | .str s => decide (s ≠ "")
  | .arr xs => !xs.isEmpty
  | .obj fs => !fs.isEmpty

/-!
Embedding of src/mcp.py.

`TextContent` models `mcp.types.TextContent`; its `type` field is the
constant `"text"` at every construction site in the source and is omitted.
An upstream HTTP interaction (the `client.get`, `raise_for_status` and
`.json()` steps together) is modelled by a `FetchOutcome` oracle: `.ok body`
is a decoded 2xx JSON body, `.exn msg` is any exception raised by those
steps (network failure, non-2xx status, JSON decode failure).
-/

structure TextContent where
  text : String
deriving DecidableEq, Repr

inductive FetchOutcome where
  | ok (body : Json)
  | exn (msg : String)

/-- The empty Python dict `\x7b\x7d` used as a `.get` default. -/
def emptyObj : Json := .obj []

/-- The `result` dict literal built in `get_weather_forecast`
(src/mcp.py lines 143-161), evaluated field by field in source order;
any `.get`-on-non-dict or slice-of-non-list failure is an exception. -/
def formatResult (lat lon : Json) (now : String) (marineData windData : Json) :
    Except String Json := do
  let mcur ← dictGet marineData "current" emptyObj
  let waveH ← dictGet mcur "wave_height" .null
  let mcur2 ← dictGet marineData "current" emptyObj
  let waveD ← dictGet mcur2 "wave_direction" .null
  let mcur3 ← dictGet marineData "current" emptyObj
  let waveP ← dictGet mcur3 "wave_period" .null
  let wcur ← dictGet windData "current" emptyObj
  let windS ← dictGet wcur "wind_speed_10m" .null
  let wcur2 ← dictGet windData "current" emptyObj
  let windD ← dictGet wcur2 "wind_direction_10m" .null
  let mh ← dictGet marineData "hourly" emptyObj
  let times ← (← dictGet mh "time" (.arr [])) |> pySlice 24
  let mh2 ← dictGet marineData "hourly" emptyObj
  let waveHs ← (← dictGet mh2 "wave_height" (.arr [])) |> pySlice 24
  let mh3 ← dictGet marineData "hourly" emptyObj
  let swellHs ← (← dictGet mh3 "swell_wave_height" (.arr [])) |> pySlice 24
  let wh ← dictGet windData "hourly" emptyObj
  let windSs ← (← dictGet wh "wind_speed_10m" (.arr [])) |> pySlice 24
  let wh2 ← dictGet windData "hourly" emptyObj
  let windDs ← (← dictGet wh2 "wind_direction_10m" (.arr [])) |> pySlice 24
  let daily ← dictGet marineData "daily" emptyObj
  .ok (.obj [
    ("location", .obj [("latitude", lat), ("longitude", lon)]),
    ("timestamp", .str now),
    ("current_conditions", .obj [
      ("wave_height_m", waveH),
      ("wave_direction", waveD),
      ("wave_period_s", waveP),
      ("wind_speed_kmh", windS),
      ("wind_direction", windD)]),
    ("hourly_forecast", .obj [
      ("times", times),
      ("wave_heights", waveHs),
      ("swell_heights", swellHs),
      ("wind_speeds", windSs),
      ("wind_directions", windDs)]),
    ("daily_summary", daily)])

/-- The error `TextContent` produced by `get_weather_forecast`'s
`except` clause. -/
def errWeather (e : String) : TextContent :=
  ⟨"Error fetching weather data: " ++ e⟩

/-- `get_weather_forecast` (src/mcp.py lines 109-172), instrumented with the
list of upstream fetches actually performed, in order.  The source awaits the
marine request (get, raise_for_status, json) to completion before issuing the
wind request; any exception anywhere in the `try` body is converted to the
single error `TextContent`. -/
def get_weather_forecast_run (marineApi windApi : Json → Json → FetchOutcome)
    (now : String) (lat lon : Json) : List TextContent × List String :=
  match marineApi lat lon with
  | .exn e => ([errWeather e], ["marine"])
  | .ok marineData =>
    match windApi lat lon with
    | .exn e => ([errWeather e], ["marine", "wind"])
    | .ok windData =>
      match formatResult lat lon now marineData windData with
      | .error e => ([errWeather e], ["marine", "wind"])
      | .ok doc => ([⟨dumps doc⟩], ["marine", "wind"])

/-- `search_surf_spot_info` (src/mcp.py lines 175-182): pure string
formatting, no I/O. -/
def search_surf_spot_info_run (spot_name loc : Json) : List TextContent :=
  let query := pyStr spot_name ++ " surf spot " ++ pyStr loc ++
    " best conditions optimal swell wind direction"
  [⟨"Search query prepared: " ++ sQuote ++ query ++ sQuote ++
    "\n\nNote: In production, this would use a web search API or scrape surf forecasting sites like Surfline, Magic Seaweed, or local surf reports to find optimal conditions for " ++
    pyStr spot_name ++ "."⟩]

/-- One entry of the geocoding result list (src/mcp.py lines 204-211). -/
def geoEntry (j : Json) : Except String Json := do
  let n ← dictGet j "name" .null
  let la ← dictGet j "latitude" .null
  let lo ← dictGet j "longitude" .null
  let c ← dictGet j "country" .null
  let a1 ← dictGet j "admin1" .null
  .ok (.obj [("name", n), ("latitude", la), ("longitude", lo),
    ("country", c), ("admin1", a1)])

/-- `get_spot_coordinates` (src/mcp.py lines 185-230).  Iterating or slicing
a truthy non-list `results` value raises in Python and lands in the same
`except` clause; that exception is labelled "TypeError" here. -/
def get_spot_coordinates_run (geoApi : String → FetchOutcome)
    (spot_name loc : Json) : List TextContent :=
  let q := pyStr spot_name ++ " " ++ pyStr loc
  match geoApi q with
  | .exn e => [⟨"Error getting coordinates: " ++ e⟩]
  | .ok data =>
    let step : Except String (List TextContent) := do
      let results ← dictGet data "results" .null
      if jTruthy results then
        match results with
        | .arr rs => do
          let entries ← (rs.take 3).mapM geoEntry
          .ok [⟨dumps (.obj [("query", .str q), ("results", .arr entries)])⟩]
        | _ => .error "TypeError"
      else
        .ok [⟨"No coordinates found for " ++ q⟩]
    match step with
    | .ok r => r
    | .error e => [⟨"Error getting coordinates: " ++ e⟩]

/-- `call_tool` (src/mcp.py lines 84-106).  `arguments` is the JSON argument
mapping; a Python subscript `arguments["k"]` on a missing key raises KeyError,
modelled as `Except.error`, which leaves `call_tool` uncaught. -/
def call_tool (marineApi windApi : Json → Json → FetchOutcome)
    (geoApi : String → FetchOutcome) (now : String)
    (name : String) (arguments : List (String × Json)) :
    Except String (List TextContent) :=
  if name = "get_weather_forecast" then
    match arguments.lookup "latitude" with
    | none => .error "KeyError: latitude"
    | some lat =>
      match arguments.lookup "longitude" with
      | none => .error "KeyError: longitude"
      | some lon => .ok (get_weather_forecast_run marineApi windApi now lat lon).1
  else if name = "search_surf_spot_info" then
    match arguments.lookup "spot_name" with
    | none => .error "KeyError: spot_name"
    | some sn =>
      .ok (search_surf_spot_info_run sn ((arguments.lookup "location").getD (.str "")))
  else if name = "get_spot_coordinates" then
    match arguments.lookup "spot_name" with
    | none => .error "KeyError: spot_name"
    | some sn =>
      .ok (get_spot_coordinates_run geoApi sn ((arguments.lookup "location").getD (.str "")))
  else
    .ok [⟨"Unknown tool: " ++ name⟩]

/-!
Embedding of src/gradio.py.

The two upstream HTTP fetches in `get_marine_weather` call `.json()` without
`raise_for_status`, so `.exn` there covers network errors and JSON decode
errors.  The LLM call (`client.messages.create` followed by
`.content[0].text`) is an oracle `String → Except String String`; its
`.error` is any exception raised by that call, caught inside
`analyze_surf_conditions`.  `generate_surf_report` is instrumented with the
list of coordinate pairs passed to `get_marine_weather`.
-/

/-- The static spot table `SURF_SPOTS` (src/gradio.py lines 18-26). -/
def SURF_SPOTS : List (String × (Rat × Rat)) := [
  ("Bells Beach, Australia", (-38.3667, 144.2833)),
  ("Pipeline, Hawaii", (21.6641, -158.0533)),
  ("Jeffreys Bay, South Africa", (-34.0546, 24.9096)),
  ("Teahupo" ++ sQuote ++ "o, Tahiti", (-17.8744, -149.2661)),
  ("Mavericks, California", (37.4936, -122.4967)),
  ("Cloudbreak, Fiji", (-17.7542, 177.0954)),
  ("Uluwatu, Bali", (-8.8293, 115.0846))]

/-- The external services `generate_surf_report` depends on. -/
structure GradioApis where
  marineApi : Rat → Rat → FetchOutcome
  windApi : Rat → Rat → FetchOutcome
  llm : String → Except String String

/-- `get_marine_weather` (src/gradio.py lines 29-59): the marine request is
awaited to completion before the wind request is issued; an exception in
either propagates.  On success it returns the
`\x7b"marine": ..., "wind": ...\x7d` pair. -/
def get_marine_weather_run (marineApi windApi : Rat → Rat → FetchOutcome)
    (lat lon : Rat) : Except String (Json × Json) :=
  match marineApi lat lon with
  | .exn e => .error e
  | .ok marineData =>
    match windApi lat lon with
    | .exn e => .error e
    | .ok windData => .ok (marineData, windData)

/-- `analyze_surf_conditions` (src/gradio.py lines 62-113).  Only the LLM
call is inside its `try`; exceptions raised while extracting fields for the
prompt propagate to the caller. -/
def analyze_surf_conditions_run (llm : String → Except String String)
    (spot_name : String) (marineData windData : Json) : Except String String := do
  let mcur ← dictGet marineData "current" emptyObj
  let current_wave ← dictGet mcur "wave_height" (.str "N/A")
  let mcur2 ← dictGet marineData "current" emptyObj
  let current_period ← dictGet mcur2 "wave_period" (.str "N/A")
  let wcur ← dictGet windData "current" emptyObj
  let current_wind ← dictGet wcur "wind_speed_10m" (.str "N/A")
  let wcur2 ← dictGet windData "current" emptyObj
  let current_wind_dir ← dictGet wcur2 "wind_direction_10m" (.str "N/A")
  let hourly_marine ← dictGet marineData "hourly" emptyObj
  let hourly_wind ← dictGet windData "hourly" emptyObj
  let waveHs ← (← dictGet hourly_marine "wave_height" (.arr [])) |> pySlice 24
  let swellHs ← (← dictGet hourly_marine "swell_wave_height" (.arr [])) |> pySlice 24
  let wavePs ← (← dictGet hourly_marine "wave_period" (.arr [])) |> pySlice 24
  let windSs ← (← dictGet hourly_wind "wind_speed_10m" (.arr [])) |> pySlice 24
  let windDs ← (← dictGet hourly_wind "wind_direction_10m" (.arr [])) |> pySlice 24
  let prompt :=
    "You are an expert surf forecaster analyzing conditions for " ++ spot_name ++
    ".\n\nCurrent Conditions:\n- Wave Height: " ++ pyStr current_wave ++
    "m\n- Wave Period: " ++ pyStr current_period ++
    "s\n- Wind Speed: " ++ pyStr current_wind ++
    " km/h\n- Wind Direction: " ++ pyStr current_wind_dir ++
    "°\n\n24-Hour Forecast Data:\nWave Heights (m): " ++ pyStr waveHs ++
    "\nSwell Heights (m): " ++ pyStr swellHs ++
    "\nWave Periods (s): " ++ pyStr wavePs ++
    "\nWind Speeds (km/h): " ++ pyStr windSs ++
    "\nWind Directions (°): " ++ pyStr windDs ++
    "\n\nPlease provide:\n1. **Overall Rating** (1-10 scale) with emoji\n2. **Current Conditions Summary** - describe what surfers can expect right now\n3. **Best Time to Surf** - when in the next 24 hours will conditions be optimal\n4. **Detailed Analysis** - discuss swell quality, wind conditions, and wave period\n5. **Recommendations** - skill level suited for these conditions and any safety concerns\n\nFormat your response as a clear, engaging surf report that both beginners and experienced surfers can understand."
  match llm prompt with
  | .ok replyText => .ok replyText
  | .error e => .ok ("Error generating surf report: " ++ e)

/-- The `weather_summary` f-string of `generate_surf_report`
(src/gradio.py lines 142-149), given the five extracted values. -/
def mkSummary (waveH waveP waveD windS windD : Json) : String :=
  "📊 Raw Weather Data:\n\n🌊 Wave Height: " ++ pyStr waveH ++
  "m\n📏 Wave Period: " ++ pyStr waveP ++
  "s\n🧭 Wave Direction: " ++ pyStr waveD ++
  "°\n💨 Wind Speed: " ++ pyStr windS ++
  " km/h\n🧭 Wind Direction: " ++ pyStr windD ++ "°\n"

/-- The body of `generate_surf_report` after coordinates are determined
(src/gradio.py lines 132-154): fetch, analyze, render summary; any exception
is caught by the surrounding `except` and rendered as the `"❌ Error: "`
narrative with an empty summary.  The second component records the
coordinates passed to `get_marine_weather`. -/
def reportPipeline (o : GradioApis) (spot_name : String) (lat lon : Rat) :
    (String × String) × List (Rat × Rat) :=
  match get_marine_weather_run o.marineApi o.windApi lat lon with
  | .error e => (("❌ Error: " ++ e, ""), [(lat, lon)])
  | .ok (marineData, windData) =>
    match analyze_surf_conditions_run o.llm spot_name marineData windData with
    | .error e => (("❌ Error: " ++ e, ""), [(lat, lon)])
    | .ok surfReport =>
      let summaryStep : Except String String := do
        let cur ← dictGet marineData "current" emptyObj
        let curWind ← dictGet windData "current" emptyObj
        let waveH ← dictGet cur "wave_height" (.str "N/A")
        let waveP ← dictGet cur "wave_period" (.str "N/A")
        let waveD ← dictGet cur "wave_direction" (.str "N/A")
        let windS ← dictGet curWind "wind_speed_10m" (.str "N/A")
        let windD ← dictGet curWind "wind_direction_10m" (.str "N/A")
        .ok (mkSummary waveH waveP waveD windS windD)
      match summaryStep with
      | .error e => (("❌ Error: " ++ e, ""), [(lat, lon)])
      | .ok weatherSummary => ((surfReport, weatherSummary), [(lat, lon)])

/-- Python truthiness of an optional float, as tested by
`if custom_lat and custom_lon` (src/gradio.py line 122): `None` and `0.0`
are falsy. -/
def truthyOpt : Option Rat → Bool
  | none => false
  | some x => decide (x ≠ 0)

/-- `generate_surf_report` (src/gradio.py lines 116-154), instrumented with
the list of coordinate pairs passed to `get_marine_weather`.  The unused
local `location_info` of the source is not modelled. -/
def generate_surf_report_run (o : GradioApis) (spot_name : String)
    (custom_lat custom_lon : Option Rat) : (String × String) × List (Rat × Rat) :=
  if truthyOpt custom_lat && truthyOpt custom_lon then
    reportPipeline o spot_name (custom_lat.getD 0) (custom_lon.getD 0)
  else
    match SURF_SPOTS.lookup spot_name with
    | some (lat, lon) => reportPipeline o spot_name lat lon
    | none =>
      (("❌ Spot not found. Please select from the dropdown or enter custom coordinates.", ""), [])

/-- `sync_generate_report` (src/gradio.py lines 157-161).  `float(s)` is the
oracle `parseFloat`; its exception (ValueError) propagates, as the wrapper
has no `try`.  A `None` or empty-string textbox value is falsy and becomes
`None`. -/
def sync_generate_report_run (parseFloat : String → Except String Rat)
    (o : GradioApis) (spot : String) (lat lon : Option String) :
    Except String ((String × String) × List (Rat × Rat)) := do
  let custom_lat ← match lat with
    | none => pure (none : Option Rat)
    | some s => if s = "" then pure none else do pure (some (← parseFloat s))
  let custom_lon ← match lon with
    | none => pure (none : Option Rat)
    | some s => if s = "" then pure none else do pure (some (← parseFloat s))
  pure (generate_surf_report_run o spot custom_lat custom_lon)

/-!
Concrete service fixtures used by witnesses and counterexamples.
-/

/-- A marine client whose HTTP interaction raises (e.g. a timeout). -/
def marineFailApi : Json → Json → FetchOutcome := fun _ _ => .exn "timeout"

/-- A successful wind-client body with current and hourly wind fields. -/
def windBodyOk : Json := .obj [
  ("current", .obj [("wind_speed_10m", .num 12), ("wind_direction_10m", .num 180)]),
  ("hourly", .obj [("wind_speed_10m", .arr [.num 12, .num 14]),
                   ("wind_direction_10m", .arr [.num 180, .num 190])])]

/-- A wind client that succeeds with `windBodyOk`. -/
def windOkApi : Json → Json → FetchOutcome := fun _ _ => .ok windBodyOk

/-- A geocoding client that raises. -/
def geoFailApi : String → FetchOutcome := fun _ => .exn "offline"

/-- Gradio-side services: both upstream fetches return empty JSON objects,
and the LLM call raises. -/
def plainApis : GradioApis :=
  ⟨fun _ _ => .ok emptyObj, fun _ _ => .ok emptyObj, fun _ => .error "boom"⟩

/-- Bool substring test on character lists (spec-checking helper, not from
the source). -/
def hasSub (needle hay : List Char) : Bool :=
  hay.tails.any fun t => needle.isPrefixOf t

/-!
Theorems for the claims.
-/

/-- C1 (counterexample): with the Marine client failing (timeout) and the
Wind client succeeding, `get_weather_forecast` returns the
`"Error fetching weather data: ..."` payload — not a normalized forecast
document; the output does not even mention a wind field, refuting the claim
that a partial document with nulls and a failure annotation is returned. -/
theorem single_failure_yields_error_not_partial_document :
    get_weather_forecast_run marineFailApi windOkApi "T" (.num 1) (.num 2)
      = ([errWeather "timeout"], ["marine"])
    ∧ hasSub "wind_speed_kmh".data (errWeather "timeout").text.data = false := by
  exact ⟨rfl, by decide⟩

/-- C1 (amended): if either upstream client fails, `get_weather_forecast`
returns the single error payload (carrying only the first failure) and no
partial document; a normalized document is produced only when both clients
succeed and formatting succeeds. -/
theorem aggregation_error_short_circuits (windApi : Json → Json → FetchOutcome)
    (now : String) (lat lon : Json) (e : String) (m w : Json) :
    get_weather_forecast_run (fun _ _ => .exn e) windApi now lat lon
      = ([errWeather e], ["marine"])
    ∧ get_weather_forecast_run (fun _ _ => .ok m) (fun _ _ => .exn e) now lat lon
      = ([errWeather e], ["marine", "wind"])
    ∧ get_weather_forecast_run (fun _ _ => .ok m) (fun _ _ => .ok w) now lat lon
      = ((match formatResult lat lon now m w with
          | .ok doc => [(⟨dumps doc⟩ : TextContent)]
          | .error er => [errWeather er]), ["marine", "wind"]) := by
  refine ⟨rfl, rfl, ?_⟩
  cases h : formatResult lat lon now m w <;> simp [get_weather_forecast_run, h]

/-- C2 (counterexample): when the Marine fetch fails, the Wind fetch is
never performed at all — refuting the claim that both upstream fetches are
invoked and complete before the merge on every aggregation call. -/
theorem wind_fetch_skipped_on_marine_failure :
    (get_weather_forecast_run marineFailApi windOkApi "T" (.num 1) (.num 2)).2 = ["marine"]
    ∧ "wind" ∉ (get_weather_forecast_run marineFailApi windOkApi "T" (.num 1) (.num 2)).2 := by
  exact ⟨rfl, by decide⟩

/-- C2 (amended): the two upstream fetches form a sequential chain, not a
concurrent join: the Wind fetch is issued only after the Marine fetch
completes successfully, and is skipped entirely when the Marine fetch
fails. -/
theorem wind_fetch_requires_marine_success (windApi : Json → Json → FetchOutcome)
    (now : String) (lat lon : Json) (e : String) (m : Json) :
    (get_weather_forecast_run (fun _ _ => .exn e) windApi now lat lon).2 = ["marine"]
    ∧ (get_weather_forecast_run (fun _ _ => .ok m) windApi now lat lon).2
        = ["marine", "wind"] := by
  refine ⟨rfl, ?_⟩
  cases h : windApi lat lon with
  | exn e2 => simp [get_weather_forecast_run, h]
  | ok w =>
    cases h2 : formatResult lat lon now m w <;>
      simp [get_weather_forecast_run, h, h2]

/-- C3 (counterexample): calling `get_weather_forecast` through the
dispatcher with the required `latitude` argument missing raises KeyError
out of `call_tool` (modelled as `Except.error`) — no validation of required
arguments happens before the handler call, and `call_tool` itself produces
no structured error response. -/
theorem missing_latitude_raises_keyerror :
    call_tool marineFailApi windOkApi geoFailApi "T" "get_weather_forecast"
      [("longitude", .num 144)] = .error "KeyError: latitude" := rfl

/-- C3 (amended): a `get_weather_forecast` request whose arguments omit
`latitude` makes `call_tool` raise KeyError before the handler is invoked;
any conversion to an error response is left to the serving framework
outside this code. -/
theorem call_tool_missing_required_argument
    (marineApi windApi : Json → Json → FetchOutcome)
    (geoApi : String → FetchOutcome) (now : String)
    (args : List (String × Json)) (h : args.lookup "latitude" = none) :
    call_tool marineApi windApi geoApi now "get_weather_forecast" args
      = .error "KeyError: latitude" := by
  simp [call_tool, h]

/-- Witness for C3 (amended) at the empty argument mapping. -/
theorem call_tool_missing_required_argument_witness :
    call_tool marineFailApi windOkApi geoFailApi "W" "get_weather_forecast" []
      = .error "KeyError: latitude" :=
  call_tool_missing_required_argument marineFailApi windOkApi geoFailApi "W" [] rfl

/-- C4 (counterexample): with explicit coordinates supplied as latitude `0`
and longitude `144.2833` and the spot name "Pipeline, Hawaii",
`generate_surf_report` fetches for Pipeline's tabled coordinates, not the
supplied ones — supplied coordinates do not take precedence when one of
them is `0`. -/
theorem zero_latitude_ignores_custom_coordinates :
    (generate_surf_report_run plainApis "Pipeline, Hawaii"
        (some 0) (some 144.2833)).2 = [(21.6641, -158.0533)]
    ∧ (generate_surf_report_run plainApis "Pipeline, Hawaii"
        (some 0) (some 144.2833)).2 ≠ [((0 : Rat), (144.2833 : Rat))] := by
  refine ⟨rfl, ?_⟩
  intro h
  rw [show (generate_surf_report_run plainApis "Pipeline, Hawaii"
      (some 0) (some 144.2833)).2 = [(21.6641, -158.0533)] from rfl] at h
  simp only [List.cons.injEq, Prod.mk.injEq] at h
  exact absurd h.1.1 (by norm_num)

/-- C4 (amended): if both explicit coordinates are supplied and both are
nonzero (truthy), the pipeline proceeds with them, taking precedence over
any spot-name lookup. -/
lemma reportPipeline_snd (o : GradioApis) (s : String) (a b : Rat) :
    (reportPipeline o s a b).2 = [(a, b)] := by
  unfold reportPipeline
  split
  · rfl
  split
  · rfl
  dsimp only
  split <;> rfl

theorem custom_coordinates_used_when_truthy (o : GradioApis) (spot : String)
    (a b : Rat) (ha : a ≠ 0) (hb : b ≠ 0) :
    (generate_surf_report_run o spot (some a) (some b)).2 = [(a, b)] := by
  have h1 : (truthyOpt (some a) && truthyOpt (some b)) = true := by
    simp [truthyOpt, ha, hb]
  simp only [generate_surf_report_run, h1, if_true, Option.getD_some]
  exact reportPipeline_snd o spot a b

/-- Witness for C4 (amended) at coordinates (1, 2). -/
theorem custom_coordinates_used_when_truthy_witness :
    (generate_surf_report_run plainApis "nowhere" (some 1) (some 2)).2 = [(1, 2)] :=
  custom_coordinates_used_when_truthy plainApis "nowhere" 1 2
    (by norm_num) (by norm_num)

/-- C5 (confirmed): for any upstream hourly series, the normalized document
keeps exactly the first 24 entries in original order starting at index 0
(`List.take 24`): the kept series is a prefix of the upstream series and its
length is `min 24` of the upstream length, so a series of length 30 yields
24 entries and a shorter series is kept in full — no padding, no
interpolation. -/
theorem hourly_series_truncated_to_24 (lat lon : Json) (now : String)
    (mcur wcur : List (String × Json)) (d : Json)
    (ts whs shs wss wds : List Json) :
    formatResult lat lon now
      (.obj [("current", .obj mcur),
             ("hourly", .obj [("time", .arr ts), ("wave_height", .arr whs),
                              ("swell_wave_height", .arr shs)]),
             ("daily", d)])
      (.obj [("current", .obj wcur),
             ("hourly", .obj [("wind_speed_10m", .arr wss),
                              ("wind_direction_10m", .arr wds)])])
    = .ok (.obj [
        ("location", .obj [("latitude", lat), ("longitude", lon)]),
        ("timestamp", .str now),
        ("current_conditions", .obj [
          ("wave_height_m", (mcur.lookup "wave_height").getD .null),
          ("wave_direction", (mcur.lookup "wave_direction").getD .null),
          ("wave_period_s", (mcur.lookup "wave_period").getD .null),
          ("wind_speed_kmh", (wcur.lookup "wind_speed_10m").getD .null),
          ("wind_direction", (wcur.lookup "wind_direction_10m").getD .null)]),
        ("hourly_forecast", .obj [
          ("times", .arr (ts.take 24)),
          ("wave_heights", .arr (whs.take 24)),
          ("swell_heights", .arr (shs.take 24)),
          ("wind_speeds", .arr (wss.take 24)),
          ("wind_directions", .arr (wds.take 24))]),
        ("daily_summary", d)])
    ∧ (ts.take 24).length = min 24 ts.length ∧ ts.take 24 <+: ts
    ∧ (whs.take 24).length = min 24 whs.length ∧ whs.take 24 <+: whs
    ∧ (shs.take 24).length = min 24 shs.length ∧ shs.take 24 <+: shs
    ∧ (wss.take 24).length = min 24 wss.length ∧ wss.take 24 <+: wss
    ∧ (wds.take 24).length = min 24 wds.length ∧ wds.take 24 <+: wds := by
  refine ⟨rfl, ?_, ?_, ?_, ?_, ?_, ?_, ?_, ?_, ?_, ?_⟩ <;>
    first
      | exact List.length_take ..
      | exact List.take_prefix ..

/-- C6 (confirmed): dispatching any tool name outside the catalog returns a
normal response whose payload is exactly "Unknown tool: " followed by the
literal tool name; `call_tool` does not raise on such a request. -/
theorem unknown_tool_returns_error_payload
    (marineApi windApi : Json → Json → FetchOutcome)
    (geoApi : String → FetchOutcome) (now : String)
    (name : String) (args : List (String × Json))
    (h1 : name ≠ "get_weather_forecast")
    (h2 : name ≠ "search_surf_spot_info")
    (h3 : name ≠ "get_spot_coordinates") :
    call_tool marineApi windApi geoApi now name args
      = .ok [⟨"Unknown tool: " ++ name⟩] := by
  simp [call_tool, h1, h2, h3]

/-- Witness for C6 at the tool name "not_a_real_tool". -/
theorem unknown_tool_returns_error_payload_witness :
    call_tool marineFailApi windOkApi geoFailApi "T" "not_a_real_tool" []
      = .ok [⟨"Unknown tool: not_a_real_tool"⟩] :=
  unknown_tool_returns_error_payload marineFailApi windOkApi geoFailApi "T"
    "not_a_real_tool" [] (by decide) (by decide) (by decide)

/-- C7 (confirmed): for a spot name outside the static table, with no truthy
custom coordinates, `generate_surf_report` returns the fixed non-empty
"Spot not found" narrative and an empty structured summary, without raising
and without fetching anything. -/
theorem unknown_spot_returns_error_narrative (o : GradioApis) (spot : String)
    (clat clon : Option Rat)
    (h1 : SURF_SPOTS.lookup spot = none)
    (h2 : (truthyOpt clat && truthyOpt clon) = false) :
    generate_surf_report_run o spot clat clon
      = (("❌ Spot not found. Please select from the dropdown or enter custom coordinates.",
          ""), [])
    ∧ ("❌ Spot not found. Please select from the dropdown or enter custom coordinates."
        : String) ≠ "" := by
  refine ⟨?_, by decide⟩
  simp only [generate_surf_report_run, h2, h1, Bool.false_eq_true, if_false]

/-- Witness for C7 at the unknown spot name "Atlantis". -/
theorem unknown_spot_returns_error_narrative_witness :
    generate_surf_report_run plainApis "Atlantis" none none
      = (("❌ Spot not found. Please select from the dropdown or enter custom coordinates.",
          ""), [])
    ∧ ("❌ Spot not found. Please select from the dropdown or enter custom coordinates."
        : String) ≠ "" :=
  unknown_spot_returns_error_narrative plainApis "Atlantis" none none rfl rfl

/-- C8 (confirmed): a successful upstream response whose JSON object body
lacks the "current" and "hourly" members is not an error: every
current-conditions key still exists in the normalized document and carries
null, the hourly arrays are empty, and `get_weather_forecast` returns the
serialized document, not the error payload. -/
theorem missing_fields_propagate_as_nulls (lat lon : Json) (now : String)
    (mf wf : List (String × Json))
    (h1 : mf.lookup "current" = none) (h2 : mf.lookup "hourly" = none)
    (h3 : wf.lookup "current" = none) (h4 : wf.lookup "hourly" = none) :
    formatResult lat lon now (.obj mf) (.obj wf)
      = .ok (.obj [
          ("location", .obj [("latitude", lat), ("longitude", lon)]),
          ("timestamp", .str now),
          ("current_conditions", .obj [
            ("wave_height_m", .null), ("wave_direction", .null),
            ("wave_period_s", .null), ("wind_speed_kmh", .null),
            ("wind_direction", .null)]),
          ("hourly_forecast", .obj [
            ("times", .arr []), ("wave_heights", .arr []),
            ("swell_heights", .arr []), ("wind_speeds", .arr []),
            ("wind_directions", .arr [])]),
          ("daily_summary", (mf.lookup "daily").getD emptyObj)])
    ∧ get_weather_forecast_run (fun _ _ => .ok (.obj mf)) (fun _ _ => .ok (.obj wf))
        now lat lon
      = ([⟨dumps (.obj [
          ("location", .obj [("latitude", lat), ("longitude", lon)]),
          ("timestamp", .str now),
          ("current_conditions", .obj [
            ("wave_height_m", .null), ("wave_direction", .null),
            ("wave_period_s", .null), ("wind_speed_kmh", .null),
            ("wind_direction", .null)]),
          ("hourly_forecast", .obj [
            ("times", .arr []), ("wave_heights", .arr []),
            ("swell_heights", .arr []), ("wind_speeds", .arr []),
            ("wind_directions", .arr [])]),
          ("daily_summary", (mf.lookup "daily").getD emptyObj)])⟩],
         ["marine", "wind"]) := by
  have hf : formatResult lat lon now (.obj mf) (.obj wf)
      = .ok (.obj [
          ("location", .obj [("latitude", lat), ("longitude", lon)]),
          ("timestamp", .str now),
          ("current_conditions", .obj [
            ("wave_height_m", .null), ("wave_direction", .null),
            ("wave_period_s", .null), ("wind_speed_kmh", .null),
            ("wind_direction", .null)]),
          ("hourly_forecast", .obj [
            ("times", .arr []), ("wave_heights", .arr []),
            ("swell_heights", .arr []), ("wind_speeds", .arr []),
            ("wind_directions", .arr [])]),
          ("daily_summary", (mf.lookup "daily").getD emptyObj)]) := by
    simp only [formatResult, dictGet, emptyObj, h1, h2, h3, h4, Option.getD_none]
    rfl
  refine ⟨hf, ?_⟩
  simp [get_weather_forecast_run, hf]

/-- Witness for C8 at empty upstream bodies. -/
theorem missing_fields_propagate_as_nulls_witness :
    formatResult (.num 1) (.num 2) "T3" (.obj []) (.obj [])
      = .ok (.obj [
          ("location", .obj [("latitude", .num 1), ("longitude", .num 2)]),
          ("timestamp", .str "T3"),
          ("current_conditions", .obj [
            ("wave_height_m", .null), ("wave_direction", .null),
            ("wave_period_s", .null), ("wind_speed_kmh", .null),
            ("wind_direction", .null)]),
          ("hourly_forecast", .obj [
            ("times", .arr []), ("wave_heights", .arr []),
            ("swell_heights", .arr []), ("wind_speeds", .arr []),
            ("wind_directions", .arr [])]),
          ("daily_summary", emptyObj)]) :=
  (missing_fields_propagate_as_nulls (.num 1) (.num 2) "T3" [] []
    rfl rfl rfl rfl).1

/-- C9 (confirmed): with a resolvable spot and both upstream fetches
succeeding, a failing LLM call (the report generator) does not suppress the
structured summary: `generate_surf_report` returns the degraded
"Error generating surf report: ..." narrative together with the rendered
weather summary of the current conditions. -/
theorem report_generation_failure_keeps_summary (spot : String) (a b : Rat)
    (h : SURF_SPOTS.lookup spot = some (a, b))
    (mc wc : List (String × Json)) (xs ys zs us vs : List Json) (e : String) :
    generate_surf_report_run
      ⟨fun _ _ => .ok (.obj [("current", .obj mc),
          ("hourly", .obj [("wave_height", .arr xs),
                           ("swell_wave_height", .arr ys),
                           ("wave_period", .arr zs)])]),
       fun _ _ => .ok (.obj [("current", .obj wc),
          ("hourly", .obj [("wind_speed_10m", .arr us),
                           ("wind_direction_10m", .arr vs)])]),
       fun _ => .error e⟩
      spot none none
    = (("Error generating surf report: " ++ e,
        mkSummary ((mc.lookup "wave_height").getD (.str "N/A"))
                  ((mc.lookup "wave_period").getD (.str "N/A"))
                  ((mc.lookup "wave_direction").getD (.str "N/A"))
                  ((wc.lookup "wind_speed_10m").getD (.str "N/A"))
                  ((wc.lookup "wind_direction_10m").getD (.str "N/A"))),
       [(a, b)]) := by
  simp only [generate_surf_report_run, truthyOpt, Bool.and_self,
    Bool.false_eq_true, if_false, h]
  rfl

/-- Witness for C9 at "Pipeline, Hawaii" with empty field lists. -/
theorem report_generation_failure_keeps_summary_witness :
    generate_surf_report_run
      ⟨fun _ _ => .ok (.obj [("current", .obj []),
          ("hourly", .obj [("wave_height", .arr []),
                           ("swell_wave_height", .arr []),
                           ("wave_period", .arr [])])]),
       fun _ _ => .ok (.obj [("current", .obj []),
          ("hourly", .obj [("wind_speed_10m", .arr []),
                           ("wind_direction_10m", .arr [])])]),
       fun _ => .error "model down"⟩
      "Pipeline, Hawaii" none none
    = (("Error generating surf report: model down",
        mkSummary (.str "N/A") (.str "N/A") (.str "N/A") (.str "N/A") (.str "N/A")),
       [(21.6641, -158.0533)]) :=
  report_generation_failure_keeps_summary "Pipeline, Hawaii" 21.6641 (-158.0533)
    rfl [] [] [] [] [] [] [] "model down"

/-- C10 (confirmed): a supplied explicit coordinate equal to 0 (or an empty
string at the synchronous wrapper) is treated as absent by the truthiness
test, so the pipeline behaves exactly as if that coordinate had not been
supplied and falls back to the spot-name lookup. -/
theorem zero_or_empty_coordinate_treated_as_absent :
    (∀ (o : GradioApis) (spot : String) (lon : Option Rat),
      generate_surf_report_run o spot (some 0) lon
        = generate_surf_report_run o spot none lon)
    ∧ (∀ (o : GradioApis) (spot : String) (lat : Option Rat),
      generate_surf_report_run o spot lat (some 0)
        = generate_surf_report_run o spot lat none)
    ∧ (∀ (p : String → Except String Rat) (o : GradioApis) (spot : String)
        (lon : Option String),
      sync_generate_report_run p o spot (some "") lon
        = sync_generate_report_run p o spot none lon) := by
  refine ⟨?_, ?_, ?_⟩
  · intro o spot lon
    simp [generate_surf_report_run, truthyOpt]
  · intro o spot lat
    simp [generate_surf_report_run, truthyOpt]
  · intro p o spot lon
    rfl
